import Mathlib

/-!
Shallow embedding of the `opendrive-cli` API client
(`src/opendrivecli/opendriveapi.py`, class `OpenDriveAPI`) and proofs about
its session lifecycle, file operations, payload construction and logging.

Modelling choices:
- Python values flowing through JSON are modelled by `JVal` (string, int,
  bool, null); Python `None` is `JVal.null`, truthiness by `pyTruthy`.
- The network is an oracle `Net : String → JObj → PostResult` mapping a URL
  and the JSON payload of a POST to either a response (status code, raw
  body, parsed JSON body when the body is valid JSON) or an HTTP error
  exception (`urllib.request.HTTPError`).
- Each method returns an `Outcome`: the Python return value wrapped in
  `Except PyErr` (`.error` for an exception which the source does not
  catch, i.e. `KeyError` and `json` decode errors), the resulting object
  state, and a trace of stdout writes, stderr writes and issued POSTs.
- `os.linesep` is modelled as a newline.
-/

set_option autoImplicit false

namespace OpenDriveAPI

/-- A Python value as it appears in JSON payloads and responses. -/
inductive JVal where
| s (v : String)
| i (v : Int)
| b (v : Bool)
| null
deriving DecidableEq

/-- A decoded JSON object (`json.loads` result): key/value pairs with
unique keys. -/
abbrev JObj := List (String × JVal)

/-- Python truthiness of a `JVal` (`if x:`): empty string, zero, `False`
and `None` are falsy. -/
def pyTruthy : JVal → Bool
| .s v => v ≠ ""
| .i v => v ≠ 0
| .b v => v
| .null => false

/-- Python truthiness of an optional-string parameter defaulting to
`None` (`if subject:`). -/
def pyTruthyOptStr : Option String → Bool
| none => false
| some v => v ≠ ""

/-- An HTTP response object (`urllib` response): `getcode()`, the raw body
returned by `read()`, and the body parsed as JSON (`none` when the body is
not valid JSON, in which case `json.loads` raises). -/
structure HTTPResponse where
status : Int
bodyRaw : String
bodyJson : Option JObj
deriving DecidableEq

/-- Result of `__dopost`: a response object, or an
`urllib.request.HTTPError` exception with code and message. -/
inductive PostResult where
| success (r : HTTPResponse)
| httpError (code : Int) (msg : String)
deriving DecidableEq

/-- The network oracle: what the server does for a POST of a given
payload to a given URL. -/
def Net : Type := String → JObj → PostResult

/-- Exceptions the source code does not catch (it only catches
`urllib.request.HTTPError`): `KeyError` from a missing JSON field and
`json.JSONDecodeError` from a non-JSON body. -/
inductive PyErr where
| keyError (key : String)
| jsonDecodeError
deriving DecidableEq

/-- Log levels. Modelled from the spec: `opendrivecli/odloglevel.py` is
not under src/; the spec and the docstring of `OpenDriveAPI.log` give the
enumeration Error/Warning/Info/Debug with codes 0/1/2/3, compared against
the integer verbosity count. -/
inductive ODLogLevel where
| ERROR
| WARN
| INFO
| DEBUG
deriving DecidableEq

/-- Integer code of a log level (0 = Error, 1 = Warning, 2 = Info,
3 = Debug). -/
def ODLogLevel.val : ODLogLevel → Int
| .ERROR => 0
| .WARN => 1
| .INFO => 2
| .DEBUG => 3

/-- Access permissions. Modelled from the spec:
`opendrivecli/odaccessperm.py` is not under src/; the spec maps
Private/Public/Hidden to integer codes 0/1/2 (also the `ACCESS_*`
constants of the class). -/
inductive ODAccessPerm where
| PRIVATE
| PUBLIC
| HIDDEN
deriving DecidableEq

/-- Integer code (`access.value`) sent as `file_ispublic`. -/
def ODAccessPerm.value : ODAccessPerm → Int
| .PRIVATE => 0
| .PUBLIC => 1
| .HIDDEN => 2

/-- Observable side effects of one method invocation: strings written to
stdout, strings written to stderr, and POST requests issued (URL and JSON
payload, in order). -/
structure Trace where
stdoutW : List String
stderrW : List String
posts : List (String × JObj)
deriving DecidableEq

def Trace.empty : Trace := ⟨[], [], []⟩

def Trace.append (a b : Trace) : Trace :=
⟨a.stdoutW ++ b.stdoutW, a.stderrW ++ b.stderrW, a.posts ++ b.posts⟩

@[simp] theorem Trace.append_posts (a b : Trace) :
    (Trace.append a b).posts = a.posts ++ b.posts := rfl

@[simp] theorem Trace.append_stdoutW (a b : Trace) :
    (Trace.append a b).stdoutW = a.stdoutW ++ b.stdoutW := rfl

@[simp] theorem Trace.append_stderrW (a b : Trace) :
    (Trace.append a b).stderrW = a.stderrW ++ b.stderrW := rfl

/-- The mutable state of an `OpenDriveAPI` instance: `self.__sessionId`
(`JVal.null` models Python `None`) and `self.__loglevel`. -/
structure APIState where
sessionId : JVal
loglevel : Int
deriving DecidableEq

/-- `if self.__sessionId:` — whether a (truthy) session token is held. -/
def tokenHeld (st : APIState) : Bool := pyTruthy st.sessionId

/-- Result of one method invocation: Python return value (or uncaught
exception), new object state, and effect trace. -/
structure Outcome (α : Type) where
result : Except PyErr α
state : APIState
trace : Trace

def BASEURL : String := "https://dev.opendrive.com/api/v1/"

/-- `os.linesep`, modelled as a newline. -/
def odLinesep : String := "\n"

/-- The writes performed by `OpenDriveAPI.log(message, level)` for a
configured `self.__loglevel`. Mirrors the source: the whole body is
guarded by `level <= self.__loglevel`; an Error-level message is first
written to stderr with an `[ERROR] ` prefix and then (the unprefixed
`message` variable unchanged) to stdout; the other levels prepend their
tag to `message` and write only to stdout. -/
def log (loglevel : Int) (message : String) (level : ODLogLevel) : Trace :=
if level.val ≤ loglevel then
  match level with
  | .ERROR => ⟨[message ++ odLinesep], ["[ERROR] " ++ message ++ odLinesep], []⟩
  | .WARN => ⟨["[WARN] " ++ message ++ odLinesep], [], []⟩
  | .INFO => ⟨["[INFO] " ++ message ++ odLinesep], [], []⟩
  | .DEBUG => ⟨["[DEBUG] " ++ message ++ odLinesep], [], []⟩
else Trace.empty

@[simp] theorem log_posts (loglevel : Int) (message : String) (level : ODLogLevel) :
    (log loglevel message level).posts = [] := by
  unfold log
  split
  · cases level <;> rfl
  · rfl

/-- The trace of a single `__dopost` call (records the issued POST). -/
def postTrace (url : String) (payload : JObj) : Trace := ⟨[], [], [(url, payload)]⟩

/-- `OpenDriveAPI.logout(self)`: no-op when no truthy token is held;
otherwise POSTs the token to `session/logout.json`, logs (but swallows)
an `HTTPError`, and clears `self.__sessionId` in every case. -/
def logout (st : APIState) (net : Net) : Outcome Unit :=
if tokenHeld st = false then ⟨.ok (), st, Trace.empty⟩
else
  let url := BASEURL ++ "session/logout.json"
  let payload : JObj := [("session_id", st.sessionId)]
  let tr :=
    match net url payload with
    | .success _ => postTrace url payload
    | .httpError code msg =>
        Trace.append (postTrace url payload)
          (log st.loglevel
            ("Error logging out, got HTTP Status " ++ toString code ++ ": " ++ msg)
            .ERROR)
  ⟨.ok (), ⟨JVal.null, st.loglevel⟩, tr⟩

/-- `OpenDriveAPI.login(self, username, password)`. Fails fast on empty
credentials; logs out first when a token is held; POSTs
`{username, passwd}` to `session/login.json`; on HTTP 200 decodes the
body and stores its `SessionID` field (a missing field raises `KeyError`,
a non-JSON body raises a decode error, both uncaught); on non-200 or
`HTTPError` logs and returns `False`. -/
def login (st : APIState) (net : Net) (username password : String) : Outcome Bool :=
if username = "" ∨ password = "" then
  ⟨.ok false, st, log st.loglevel "Username or password not set" .ERROR⟩
else
  let st1 := if tokenHeld st then (logout st net).state else st
  let tr1 := if tokenHeld st then (logout st net).trace else Trace.empty
  let tr2 :=
    log st1.loglevel ("Logging in to OpenDrive with Username " ++ username) .DEBUG
  let url := BASEURL ++ "session/login.json"
  let payload : JObj := [("username", JVal.s username), ("passwd", JVal.s password)]
  let trPost := Trace.append tr1 (Trace.append tr2 (postTrace url payload))
  match net url payload with
  | .httpError code msg =>
      ⟨.ok false, st1,
        Trace.append trPost
          (log st1.loglevel
            ("Error logging in to OpenDrive, got HTTP Status " ++ toString code ++ ": " ++ msg)
            .ERROR)⟩
  | .success r =>
      if r.status ≠ 200 then
        ⟨.ok false, st1,
          Trace.append trPost
            (log st1.loglevel
              ("Error logging in to OpenDrive, got HTTP Status " ++ toString r.status ++ ": " ++ r.bodyRaw)
              .ERROR)⟩
      else
        match r.bodyJson with
        | none => ⟨.error .jsonDecodeError, st1, trPost⟩
        | some userinfo =>
            match List.lookup "SessionID" userinfo with
            | none => ⟨.error (.keyError "SessionID"), st1, trPost⟩
            | some sid => ⟨.ok true, ⟨sid, st1.loglevel⟩, trPost⟩

/-- `OpenDriveAPI.loggedin(self)`: `False` immediately when no truthy
token is held (no network call); otherwise POSTs the token to
`session/exists.json` and returns the `result` field of the decoded 200
body (raising on a non-JSON body or missing field); returns `False` on a
non-200 status or `HTTPError`, logging the error. -/
def loggedin (st : APIState) (net : Net) : Outcome JVal :=
if tokenHeld st = false then ⟨.ok (JVal.b false), st, Trace.empty⟩
else
  let url := BASEURL ++ "session/exists.json"
  let payload : JObj := [("session_id", st.sessionId)]
  match net url payload with
  | .httpError code msg =>
      ⟨.ok (JVal.b false), st,
        Trace.append (postTrace url payload)
          (log st.loglevel
            ("Error checking session exists, got HTTP Status " ++ toString code ++ ": " ++ msg)
            .ERROR)⟩
  | .success r =>
      if r.status ≠ 200 then
        ⟨.ok (JVal.b false), st,
          Trace.append (postTrace url payload)
            (log st.loglevel
              ("Error checking session exists, got HTTP Status " ++ toString r.status ++ ": " ++ r.bodyRaw)
              .ERROR)⟩
      else
        match r.bodyJson with
        | none => ⟨.error .jsonDecodeError, st, postTrace url payload⟩
        | some sessioninfo =>
            match List.lookup "result" sessioninfo with
            | none => ⟨.error (.keyError "result"), st, postTrace url payload⟩
            | some v => ⟨.ok v, st, postTrace url payload⟩

/-- `OpenDriveAPI.file_trash(self, fileid)`: liveness gate, then POST
`{session_id, file_id}` to `file/trash.json`; `True` on 200, `False`
(logged) on non-200 or `HTTPError`. -/
def file_trash (st : APIState) (net : Net) (fileid : String) : Outcome Bool :=
let lo := loggedin st net
match lo.result with
| .error e => ⟨.error e, lo.state, lo.trace⟩
| .ok lv =>
  if pyTruthy lv = false then ⟨.ok false, lo.state, lo.trace⟩
  else
    let url := BASEURL ++ "file/trash.json"
    let payload : JObj := [("session_id", st.sessionId), ("file_id", JVal.s fileid)]
    match net url payload with
    | .httpError code msg =>
        ⟨.ok false, lo.state,
          Trace.append lo.trace (Trace.append (postTrace url payload)
            (log st.loglevel
              ("Error deleting file " ++ fileid ++ ", got HTTP Status " ++ toString code ++ ": " ++ msg)
              .ERROR))⟩
    | .success r =>
        if r.status ≠ 200 then
          ⟨.ok false, lo.state,
            Trace.append lo.trace (Trace.append (postTrace url payload)
              (log st.loglevel
                ("Error deleting file " ++ fileid ++ ", got HTTP Status " ++ toString r.status ++ ": " ++ r.bodyRaw)
                .ERROR))⟩
        else ⟨.ok true, lo.state, Trace.append lo.trace (postTrace url payload)⟩

/-- `OpenDriveAPI.file_restore(self, fileid)`: liveness gate, then POST
`{session_id, file_id}` to `file/restore.json`; `True` on 200, `False`
(logged) on non-200 or `HTTPError`. -/
def file_restore (st : APIState) (net : Net) (fileid : String) : Outcome Bool :=
let lo := loggedin st net
match lo.result with
| .error e => ⟨.error e, lo.state, lo.trace⟩
| .ok lv =>
  if pyTruthy lv = false then ⟨.ok false, lo.state, lo.trace⟩
  else
    let url := BASEURL ++ "file/restore.json"
    let payload : JObj := [("session_id", st.sessionId), ("file_id", JVal.s fileid)]
    match net url payload with
    | .httpError code msg =>
        ⟨.ok false, lo.state,
          Trace.append lo.trace (Trace.append (postTrace url payload)
            (log st.loglevel
              ("Error restoring file " ++ fileid ++ " from trash, got HTTP Status " ++ toString code ++ ": " ++ msg)
              .ERROR))⟩
    | .success r =>
        if r.status ≠ 200 then
          ⟨.ok false, lo.state,
            Trace.append lo.trace (Trace.append (postTrace url payload)
              (log st.loglevel
                ("Error restoring file " ++ fileid ++ " from trash, got HTTP Status " ++ toString r.status ++ ": " ++ r.bodyRaw)
                .ERROR))⟩
        else ⟨.ok true, lo.state, Trace.append lo.trace (postTrace url payload)⟩

/-- The JSON payload built by `file_sendbyemail` (source lines 192-196):
`{session_id, file_id, recipient_emails}`, then `message_subject` /
`message_body` added only when the corresponding argument is truthy. -/
def file_sendbyemail_req (sessionId : JVal) (fileid rcpt : String)
    (subject body : Option String) : JObj :=
let req0 : JObj :=
  [("session_id", sessionId), ("file_id", JVal.s fileid),
    ("recipient_emails", JVal.s rcpt)]
let req1 : JObj :=
  if pyTruthyOptStr subject then
    req0 ++ [("message_subject", JVal.s (subject.getD ""))]
  else req0
if pyTruthyOptStr body then
  req1 ++ [("message_body", JVal.s (body.getD ""))]
else req1

/-- `OpenDriveAPI.file_sendbyemail(self, fileid, rcpt, subject=None,
body=None)`: liveness gate; builds the payload via
`file_sendbyemail_req`; POST to `file/sendbyemail.json`. -/
def file_sendbyemail (st : APIState) (net : Net) (fileid rcpt : String)
    (subject body : Option String) : Outcome Bool :=
let lo := loggedin st net
match lo.result with
| .error e => ⟨.error e, lo.state, lo.trace⟩
| .ok lv =>
  if pyTruthy lv = false then ⟨.ok false, lo.state, lo.trace⟩
  else
    let url := BASEURL ++ "file/sendbyemail.json"
    let payload : JObj := file_sendbyemail_req st.sessionId fileid rcpt subject body
    match net url payload with
    | .httpError code msg =>
        ⟨.ok false, lo.state,
          Trace.append lo.trace (Trace.append (postTrace url payload)
            (log st.loglevel
              ("Error sending file " ++ fileid ++ " to " ++ rcpt ++ ", got HTTP Status " ++ toString code ++ ": " ++ msg)
              .ERROR))⟩
    | .success r =>
        if r.status ≠ 200 then
          ⟨.ok false, lo.state,
            Trace.append lo.trace (Trace.append (postTrace url payload)
              (log st.loglevel
                ("Error sending file " ++ fileid ++ " to " ++ rcpt ++ ", got HTTP Status " ++ toString r.status ++ ": " ++ r.bodyRaw)
                .ERROR))⟩
        else ⟨.ok true, lo.state, Trace.append lo.trace (postTrace url payload)⟩

/-- `OpenDriveAPI.file_rename(self, fileid, name)`: liveness gate, then
POST `{session_id, file_id, new_file_name}` to `file/rename.json`. -/
def file_rename (st : APIState) (net : Net) (fileid name : String) : Outcome Bool :=
let lo := loggedin st net
match lo.result with
| .error e => ⟨.error e, lo.state, lo.trace⟩
| .ok lv =>
  if pyTruthy lv = false then ⟨.ok false, lo.state, lo.trace⟩
  else
    let url := BASEURL ++ "file/rename.json"
    let payload : JObj :=
      [("session_id", st.sessionId), ("file_id", JVal.s fileid),
        ("new_file_name", JVal.s name)]
    match net url payload with
    | .httpError code msg =>
        ⟨.ok false, lo.state,
          Trace.append lo.trace (Trace.append (postTrace url payload)
            (log st.loglevel
              ("Error renaming file " ++ fileid ++ " to " ++ name ++ ", got HTTP Status " ++ toString code ++ ": " ++ msg)
              .ERROR))⟩
    | .success r =>
        if r.status ≠ 200 then
          ⟨.ok false, lo.state,
            Trace.append lo.trace (Trace.append (postTrace url payload)
              (log st.loglevel
                ("Error renaming file " ++ fileid ++ " to " ++ name ++ ", got HTTP Status " ++ toString r.status ++ ": " ++ r.bodyRaw)
                .ERROR))⟩
        else ⟨.ok true, lo.state, Trace.append lo.trace (postTrace url payload)⟩

/-- The JSON payload built by `file_movecopy` (source lines 242-252):
`{session_id, src_file_id, dst_folder_id}`, then `move` and
`overwrite_if_exists` set to the literal strings `"true"`/`"false"`, and
`new_file_name` added only when `name` is truthy. -/
def file_movecopy_req (sessionId : JVal) (fileid folderid : String)
    (move override : Bool) (name : Option String) : JObj :=
let req0 : JObj :=
  [("session_id", sessionId), ("src_file_id", JVal.s fileid),
    ("dst_folder_id", JVal.s folderid)]
let req1 : JObj :=
  req0 ++ [("move", if move then JVal.s "true" else JVal.s "false")]
let req2 : JObj :=
  req1 ++ [("overwrite_if_exists", if override then JVal.s "true" else JVal.s "false")]
if pyTruthyOptStr name then
  req2 ++ [("new_file_name", JVal.s (name.getD ""))]
else req2

/-- `OpenDriveAPI.file_movecopy(self, fileid, folderid, move=True,
override=False, name=None)`: liveness gate; builds the payload via
`file_movecopy_req`; POST to `file/move_copy.json`. -/
def file_movecopy (st : APIState) (net : Net) (fileid folderid : String)
    (move override : Bool) (name : Option String) : Outcome Bool :=
let lo := loggedin st net
match lo.result with
| .error e => ⟨.error e, lo.state, lo.trace⟩
| .ok lv =>
  if pyTruthy lv = false then ⟨.ok false, lo.state, lo.trace⟩
  else
    let url := BASEURL ++ "file/move_copy.json"
    let payload : JObj := file_movecopy_req st.sessionId fileid folderid move override name
    match net url payload with
    | .httpError code msg =>
        ⟨.ok false, lo.state,
          Trace.append lo.trace (Trace.append (postTrace url payload)
            (log st.loglevel
              ("Error moving/copying file " ++ fileid ++ " to folder " ++ folderid ++ ", got HTTP Status " ++ toString code ++ ": " ++ msg)
              .ERROR))⟩
    | .success r =>
        if r.status ≠ 200 then
          ⟨.ok false, lo.state,
            Trace.append lo.trace (Trace.append (postTrace url payload)
              (log st.loglevel
                ("Error moving/copying file " ++ fileid ++ " to folder " ++ folderid ++ ", got HTTP Status " ++ toString r.status ++ ": " ++ r.bodyRaw)
                .ERROR))⟩
        else ⟨.ok true, lo.state, Trace.append lo.trace (postTrace url payload)⟩

/-- `OpenDriveAPI.file_idbypath(self, path)`: returns `None` at the
liveness gate; POSTs `{session_id, path}` to `file/idbypath.json`; on 200
returns the `FileId` field of the decoded body (a missing field raises
`KeyError`, a non-JSON body raises a decode error, both uncaught); `None`
(logged) on non-200 or `HTTPError`. -/
def file_idbypath (st : APIState) (net : Net) (path : String) : Outcome (Option JVal) :=
let lo := loggedin st net
match lo.result with
| .error e => ⟨.error e, lo.state, lo.trace⟩
| .ok lv =>
  if pyTruthy lv = false then ⟨.ok none, lo.state, lo.trace⟩
  else
    let url := BASEURL ++ "file/idbypath.json"
    let payload : JObj := [("session_id", st.sessionId), ("path", JVal.s path)]
    match net url payload with
    | .httpError code msg =>
        ⟨.ok none, lo.state,
          Trace.append lo.trace (Trace.append (postTrace url payload)
            (log st.loglevel
              ("Error getting file id by path " ++ path ++ ", got HTTP Status " ++ toString code ++ ": " ++ msg)
              .ERROR))⟩
    | .success r =>
        if r.status ≠ 200 then
          ⟨.ok none, lo.state,
            Trace.append lo.trace (Trace.append (postTrace url payload)
              (log st.loglevel
                ("Error getting file id by path " ++ path ++ ", got HTTP Status " ++ toString r.status ++ ": " ++ r.bodyRaw)
                .ERROR))⟩
        else
          match r.bodyJson with
          | none => ⟨.error .jsonDecodeError, lo.state, Trace.append lo.trace (postTrace url payload)⟩
          | some fileinfo =>
              match List.lookup "FileId" fileinfo with
              | none => ⟨.error (.keyError "FileId"), lo.state, Trace.append lo.trace (postTrace url payload)⟩
              | some fid => ⟨.ok (some fid), lo.state, Trace.append lo.trace (postTrace url payload)⟩

/-- `OpenDriveAPI.file_setaccess(self, fileid, access=ODAccessPerm.PRIVATE)`:
returns `None` (not `False`) at the liveness gate; POSTs `{session_id,
file_id, file_ispublic}` to `file/access.json`; `True` on 200, `False`
(logged) on non-200 or `HTTPError`. The return value is modelled as
`Option Bool`, with `none` for Python `None`. -/
def file_setaccess (st : APIState) (net : Net) (fileid : String)
    (access : ODAccessPerm) : Outcome (Option Bool) :=
let lo := loggedin st net
match lo.result with
| .error e => ⟨.error e, lo.state, lo.trace⟩
| .ok lv =>
  if pyTruthy lv = false then ⟨.ok none, lo.state, lo.trace⟩
  else
    let url := BASEURL ++ "file/access.json"
    let payload : JObj :=
      [("session_id", st.sessionId), ("file_id", JVal.s fileid),
        ("file_ispublic", JVal.i access.value)]
    match net url payload with
    | .httpError code msg =>
        ⟨.ok (some false), lo.state,
          Trace.append lo.trace (Trace.append (postTrace url payload)
            (log st.loglevel
              ("Error setting access permissions for file " ++ fileid ++ " to " ++ toString access.value ++ ", got HTTP Status " ++ toString code ++ ": " ++ msg)
              .ERROR))⟩
    | .success r =>
        if r.status ≠ 200 then
          ⟨.ok (some false), lo.state,
            Trace.append lo.trace (Trace.append (postTrace url payload)
              (log st.loglevel
                ("Error setting access permissions for file " ++ fileid ++ " to " ++ toString access.value ++ ", got HTTP Status " ++ toString r.status ++ ": " ++ r.bodyRaw)
                .ERROR))⟩
        else ⟨.ok (some true), lo.state, Trace.append lo.trace (postTrace url payload)⟩

/-! ### Concrete network oracles used as witnesses -/

/-- A server on which every request fails with an HTTP 500 error. -/
def netHttp500 : Net := fun _ _ => PostResult.httpError 500 "Internal Server Error"

/-- A server whose liveness endpoint confirms the session and which
answers every other request with 200 and an empty JSON object. -/
def netLive : Net := fun url _ =>
if url = BASEURL ++ "session/exists.json" then
  PostResult.success ⟨200, "", some [("result", JVal.b true)]⟩
else PostResult.success ⟨200, "", some []⟩

/-- A live server whose idbypath endpoint answers 200 with a body that
contains a `FileId` field. -/
def netIdFound : Net := fun url _ =>
if url = BASEURL ++ "session/exists.json" then
  PostResult.success ⟨200, "", some [("result", JVal.b true)]⟩
else PostResult.success ⟨200, "", some [("FileId", JVal.s "F123")]⟩

/-! ### Helper lemmas -/

/-- After `logout` no truthy token is held, whatever the server did. -/
theorem logout_clears (st : APIState) (net : Net) :
    tokenHeld (logout st net).state = false := by
  by_cases h : tokenHeld st = false
  · simp [logout, h]
  · unfold logout
    rw [if_neg h]
    rfl

/-- `logout` is a local no-op when no truthy token is held. -/
theorem logout_noop (st : APIState) (net : Net) (h : tokenHeld st = false) :
    logout st net = ⟨.ok (), st, Trace.empty⟩ := by
  simp [logout, h]

/-- When a token is held, the only POST `logout` issues is the logout
request carrying the token. -/
theorem logout_posts_held (st : APIState) (net : Net) (h : tokenHeld st = true) :
    (logout st net).trace.posts =
      [(BASEURL ++ "session/logout.json", [("session_id", st.sessionId)])] := by
  unfold logout
  rw [if_neg (by simp [h])]
  cases hnet : net (BASEURL ++ "session/logout.json") [("session_id", st.sessionId)] <;>
    simp [hnet, postTrace]

/-- `loggedin` with no truthy token returns `False` with an empty trace:
no network call, no log line. -/
theorem loggedin_no_token (st : APIState) (net : Net) (h : tokenHeld st = false) :
    loggedin st net = ⟨.ok (JVal.b false), st, Trace.empty⟩ := by
  simp [loggedin, h]

/-- With non-empty credentials, the POSTs issued by `login` are exactly
the logout request (when a token was held) followed by the login
request. -/
theorem login_posts_eq (st : APIState) (net : Net) (u p : String)
    (h : ¬(u = "" ∨ p = "")) :
    (login st net u p).trace.posts =
      (if tokenHeld st then (logout st net).trace.posts else []) ++
        [(BASEURL ++ "session/login.json",
          [("username", JVal.s u), ("passwd", JVal.s p)])] := by
  cases hh : tokenHeld st <;>
    cases hnet : net (BASEURL ++ "session/login.json")
        [("username", JVal.s u), ("passwd", JVal.s p)] <;>
    simp [login, h, hh, hnet, postTrace] <;>
    (try split) <;>
    (try split) <;>
    (try split) <;>
    (first | rfl | simp [postTrace, Trace.empty])

/-- With non-empty credentials, `login` either succeeds or leaves no
truthy token held. -/
theorem login_failed_no_token (st : APIState) (net : Net) (u p : String)
    (h : ¬(u = "" ∨ p = "")) :
    (login st net u p).result = .ok true ∨
      tokenHeld (login st net u p).state = false := by
  have hst1 : tokenHeld (if tokenHeld st then (logout st net).state else st) = false := by
    cases hh : tokenHeld st
    · simp [hh]
    · simp [hh, logout_clears]
  simp only [login]
  rw [if_neg h]
  split
  · exact Or.inr hst1
  · split
    · exact Or.inr hst1
    · split
      · exact Or.inr hst1
      · split
        · exact Or.inr hst1
        · exact Or.inl rfl

/-! ### Claims -/

/-- C2: for every state and server, `login` with an empty (or missing,
i.e. falsy) username or password returns `False`, leaves the state —
including the held session token — unchanged, and issues no network
request. -/
theorem login_empty_credentials_fails_fast (st : APIState) (net : Net)
    (username password : String) (h : username = "" ∨ password = "") :
    (login st net username password).result = .ok false ∧
    (login st net username password).state = st ∧
    (login st net username password).trace.posts = [] := by
  unfold login
  rw [if_pos h]
  exact ⟨rfl, rfl, by simp⟩

/-- C2 witness: empty username, concrete token and failing server. -/
theorem login_empty_credentials_fails_fast_witness :
    (login ⟨JVal.s "tok", 2⟩ netHttp500 "" "secret").result = .ok false ∧
    (login ⟨JVal.s "tok", 2⟩ netHttp500 "" "secret").state = ⟨JVal.s "tok", 2⟩ ∧
    (login ⟨JVal.s "tok", 2⟩ netHttp500 "" "secret").trace.posts = [] :=
  login_empty_credentials_fails_fast ⟨JVal.s "tok", 2⟩ netHttp500 "" "secret" (Or.inl rfl)

/-- C1 (code bug): with no session token held, `loggedin()` returns
`False`, and `file_setaccess` then aborts without issuing any POST — but
it returns Python `None` (modelled `Option.none`), not the `False` its
docstring and the claim promise for a boolean operation. -/
theorem file_setaccess_liveness_gate_returns_none :
    (loggedin ⟨JVal.null, 3⟩ netHttp500).result = .ok (JVal.b false) ∧
    (file_setaccess ⟨JVal.null, 3⟩ netHttp500 "123" ODAccessPerm.PRIVATE).result = .ok none ∧
    (file_setaccess ⟨JVal.null, 3⟩ netHttp500 "123" ODAccessPerm.PRIVATE).result ≠
      .ok (some false) ∧
    (file_setaccess ⟨JVal.null, 3⟩ netHttp500 "123" ODAccessPerm.PRIVATE).trace.posts = [] :=
  ⟨rfl, rfl, by simp [file_setaccess, loggedin, tokenHeld, pyTruthy], rfl⟩

/-- C3: the state holds a single `sessionId` slot, so at most one token;
with non-empty credentials, when a token is held the very first POST
`login` issues is the logout request invalidating it, and whenever
`login` does not succeed, no token is left held. -/
theorem login_logs_out_first_and_failed_login_holds_no_token
    (st : APIState) (net : Net) (u p : String) (hu : u ≠ "") (hp : p ≠ "") :
    (tokenHeld st = true →
      (login st net u p).trace.posts.head? =
        some (BASEURL ++ "session/logout.json", [("session_id", st.sessionId)])) ∧
    ((login st net u p).result ≠ .ok true →
      tokenHeld (login st net u p).state = false) := by
  have h : ¬(u = "" ∨ p = "") := by simp [hu, hp]
  constructor
  · intro htok
    rw [login_posts_eq st net u p h, logout_posts_held st net htok]
    simp [htok]
  · intro hfail
    rcases login_failed_no_token st net u p h with hok | hst
    · exact absurd hok hfail
    · exact hst

/-- C3 witness: a held token `"old"`, non-empty credentials and a server
failing with HTTP 500: the first POST is the logout request and the
failed login leaves no token held. -/
theorem login_logs_out_first_witness :
    (login ⟨JVal.s "old", 2⟩ netHttp500 "user" "pw").trace.posts.head? =
      some (BASEURL ++ "session/logout.json", [("session_id", JVal.s "old")]) ∧
    tokenHeld (login ⟨JVal.s "old", 2⟩ netHttp500 "user" "pw").state = false :=
  ⟨(login_logs_out_first_and_failed_login_holds_no_token ⟨JVal.s "old", 2⟩ netHttp500
      "user" "pw" (by decide) (by decide)).1 rfl,
    (login_logs_out_first_and_failed_login_holds_no_token ⟨JVal.s "old", 2⟩ netHttp500
      "user" "pw" (by decide) (by decide)).2
      (by
        have hres : (login ⟨JVal.s "old", 2⟩ netHttp500 "user" "pw").result =
            Except.ok false := rfl
        intro hh
        rw [hres] at hh
        exact Bool.noConfusion (Except.ok.inj hh))⟩

/-- C4: for every state and server, `logout` leaves no token held (even
when the remote logout call fails — `net` is universally quantified, so
this covers an HTTP error response); it is a local no-op when no token is
held; and a subsequent `loggedin` returns `False` with an empty trace,
hence without any network call. -/
theorem logout_always_clears_token (st : APIState) (net : Net) :
    tokenHeld (logout st net).state = false ∧
    (tokenHeld st = false → logout st net = ⟨.ok (), st, Trace.empty⟩) ∧
    loggedin (logout st net).state net =
      ⟨.ok (JVal.b false), (logout st net).state, Trace.empty⟩ :=
  ⟨logout_clears st net, logout_noop st net,
    loggedin_no_token _ net (logout_clears st net)⟩

/-- C4 witness: a held token and a server whose logout endpoint fails
with HTTP 500; the token is cleared anyway and `loggedin` is `False`. -/
theorem logout_always_clears_token_witness :
    tokenHeld (logout ⟨JVal.s "tok", 2⟩ netHttp500).state = false ∧
    loggedin (logout ⟨JVal.s "tok", 2⟩ netHttp500).state netHttp500 =
      ⟨.ok (JVal.b false), (logout ⟨JVal.s "tok", 2⟩ netHttp500).state, Trace.empty⟩ :=
  ⟨(logout_always_clears_token ⟨JVal.s "tok", 2⟩ netHttp500).1,
    (logout_always_clears_token ⟨JVal.s "tok", 2⟩ netHttp500).2.2⟩

/-- C5: in a logged-in invocation, `file_movecopy` POSTs exactly the
payload built by `file_movecopy_req`, whose `move` and
`overwrite_if_exists` entries are the literal strings
`"true"`/`"false"` (not JSON booleans), and which contains a
`new_file_name` entry exactly when a non-empty name is supplied. -/
theorem file_movecopy_payload_serialization (st : APIState) (net : Net)
    (fileid folderid : String) (move override : Bool) (name : Option String)
    (v : JVal) (hlog : (loggedin st net).result = .ok v) (hv : pyTruthy v = true) :
    (file_movecopy st net fileid folderid move override name).trace.posts =
      (loggedin st net).trace.posts ++
        [(BASEURL ++ "file/move_copy.json",
          file_movecopy_req st.sessionId fileid folderid move override name)] ∧
    List.lookup "move"
        (file_movecopy_req st.sessionId fileid folderid move override name) =
      some (JVal.s (if move then "true" else "false")) ∧
    List.lookup "overwrite_if_exists"
        (file_movecopy_req st.sessionId fileid folderid move override name) =
      some (JVal.s (if override then "true" else "false")) ∧
    ((List.lookup "new_file_name"
        (file_movecopy_req st.sessionId fileid folderid move override name)).isSome = true ↔
      ∃ s, name = some s ∧ s ≠ "") := by
  refine ⟨?_, ?_, ?_, ?_⟩
  · simp only [file_movecopy, hlog]
    rw [hv]
    simp only [Bool.true_eq_false, if_false]
    split <;> (try split) <;> simp [postTrace]
  · rcases name with _ | s
    · cases move <;> rfl
    · cases hns : pyTruthyOptStr (some s) <;> cases move <;>
        simp [file_movecopy_req, hns] <;> rfl
  · rcases name with _ | s
    · cases override <;> rfl
    · cases hns : pyTruthyOptStr (some s) <;> cases override <;>
        simp [file_movecopy_req, hns] <;> rfl
  · rcases name with _ | s
    · simp [file_movecopy_req, pyTruthyOptStr]
    · cases hns : pyTruthyOptStr (some s) <;>
        simp [pyTruthyOptStr] at hns <;>
        simp [file_movecopy_req, pyTruthyOptStr, hns]

/-- C5 witness: a held token, a live session endpoint, `move=true`,
`override=false`, no new name. -/
theorem file_movecopy_payload_serialization_witness :
    (file_movecopy ⟨JVal.s "tok", 2⟩ netLive "f1" "d1" true false none).trace.posts =
      (loggedin ⟨JVal.s "tok", 2⟩ netLive).trace.posts ++
        [(BASEURL ++ "file/move_copy.json",
          file_movecopy_req (JVal.s "tok") "f1" "d1" true false none)] ∧
    List.lookup "move" (file_movecopy_req (JVal.s "tok") "f1" "d1" true false none) =
      some (JVal.s (if true then "true" else "false")) ∧
    List.lookup "overwrite_if_exists"
        (file_movecopy_req (JVal.s "tok") "f1" "d1" true false none) =
      some (JVal.s (if false then "true" else "false")) ∧
    ((List.lookup "new_file_name"
        (file_movecopy_req (JVal.s "tok") "f1" "d1" true false none)).isSome = true ↔
      ∃ s, (none : Option String) = some s ∧ s ≠ "") :=
  file_movecopy_payload_serialization ⟨JVal.s "tok", 2⟩ netLive "f1" "d1" true false none
    (JVal.b true) rfl rfl

/-- C6: in a logged-in invocation, `file_sendbyemail` POSTs exactly the
payload built by `file_sendbyemail_req`; with no (or empty) subject and
body that payload is exactly `{session_id, file_id, recipient_emails}`,
and each of `message_subject` / `message_body` is present exactly when
the corresponding argument is supplied non-empty. -/
theorem file_sendbyemail_payload_keys (st : APIState) (net : Net)
    (fileid rcpt : String) (subject body : Option String)
    (v : JVal) (hlog : (loggedin st net).result = .ok v) (hv : pyTruthy v = true) :
    (file_sendbyemail st net fileid rcpt subject body).trace.posts =
      (loggedin st net).trace.posts ++
        [(BASEURL ++ "file/sendbyemail.json",
          file_sendbyemail_req st.sessionId fileid rcpt subject body)] ∧
    (pyTruthyOptStr subject = false → pyTruthyOptStr body = false →
      file_sendbyemail_req st.sessionId fileid rcpt subject body =
        [("session_id", st.sessionId), ("file_id", JVal.s fileid),
          ("recipient_emails", JVal.s rcpt)]) ∧
    ((List.lookup "message_subject"
        (file_sendbyemail_req st.sessionId fileid rcpt subject body)).isSome = true ↔
      ∃ s, subject = some s ∧ s ≠ "") ∧
    ((List.lookup "message_body"
        (file_sendbyemail_req st.sessionId fileid rcpt subject body)).isSome = true ↔
      ∃ s, body = some s ∧ s ≠ "") := by
  refine ⟨?_, ?_, ?_, ?_⟩
  · simp only [file_sendbyemail, hlog]
    rw [hv]
    simp only [Bool.true_eq_false, if_false]
    split <;> (try split) <;> simp [postTrace]
  · intro hs hb
    simp [file_sendbyemail_req, hs, hb]
  · rcases subject with _ | s
    · rcases body with _ | t
      · simp [file_sendbyemail_req, pyTruthyOptStr]
      · by_cases ht : t = "" <;>
          simp [file_sendbyemail_req, pyTruthyOptStr, ht]
    · rcases body with _ | t
      · by_cases hs : s = "" <;>
          simp [file_sendbyemail_req, pyTruthyOptStr, hs]
      · by_cases hs : s = "" <;> by_cases ht : t = "" <;>
          simp [file_sendbyemail_req, pyTruthyOptStr, hs, ht]
  · rcases body with _ | t
    · rcases subject with _ | s
      · simp [file_sendbyemail_req, pyTruthyOptStr]
      · by_cases hs : s = "" <;>
          simp [file_sendbyemail_req, pyTruthyOptStr, hs]
    · rcases subject with _ | s
      · by_cases ht : t = "" <;>
          simp [file_sendbyemail_req, pyTruthyOptStr, ht]
      · by_cases hs : s = "" <;> by_cases ht : t = "" <;>
          simp [file_sendbyemail_req, pyTruthyOptStr, hs, ht]

/-- C6 witness: a held token, a live session endpoint, no subject and no
body supplied. -/
theorem file_sendbyemail_payload_keys_witness :
    (file_sendbyemail ⟨JVal.s "tok", 2⟩ netLive "f1" "a@b.c" none none).trace.posts =
      (loggedin ⟨JVal.s "tok", 2⟩ netLive).trace.posts ++
        [(BASEURL ++ "file/sendbyemail.json",
          file_sendbyemail_req (JVal.s "tok") "f1" "a@b.c" none none)] ∧
    file_sendbyemail_req (JVal.s "tok") "f1" "a@b.c" none none =
      [("session_id", JVal.s "tok"), ("file_id", JVal.s "f1"),
        ("recipient_emails", JVal.s "a@b.c")] ∧
    ((List.lookup "message_subject"
        (file_sendbyemail_req (JVal.s "tok") "f1" "a@b.c" none none)).isSome = true ↔
      ∃ s, (none : Option String) = some s ∧ s ≠ "") ∧
    ((List.lookup "message_body"
        (file_sendbyemail_req (JVal.s "tok") "f1" "a@b.c" none none)).isSome = true ↔
      ∃ s, (none : Option String) = some s ∧ s ≠ "") :=
  have T := file_sendbyemail_payload_keys ⟨JVal.s "tok", 2⟩ netLive "f1" "a@b.c"
    none none (JVal.b true) rfl rfl
  ⟨T.1, T.2.1 rfl rfl, T.2.2.1, T.2.2.2⟩

/-- C7 counterexample: a live session and a 200 response whose JSON body
lacks a `FileId` field: `file_idbypath` does not return `None` — the
uncaught `KeyError` propagates. -/
theorem file_idbypath_missing_fileid_raises :
    (file_idbypath ⟨JVal.s "tok", 2⟩ netLive "docs/a.txt").result =
      .error (.keyError "FileId") ∧
    (file_idbypath ⟨JVal.s "tok", 2⟩ netLive "docs/a.txt").result ≠ .ok none := by
  have hres : (file_idbypath ⟨JVal.s "tok", 2⟩ netLive "docs/a.txt").result =
      .error (.keyError "FileId") := rfl
  refine ⟨hres, ?_⟩
  intro h
  rw [hres] at h
  exact Except.noConfusion h

/-- C7 (amended): in a logged-in invocation, `file_idbypath` returns
`None` on an `HTTPError` or a non-200 status, returns the `FileId` value
when the 200 JSON body contains one, and raises an uncaught `KeyError`
(it does not return `None`) when the 200 JSON body lacks the field. -/
theorem file_idbypath_result_behavior (st : APIState) (net : Net) (path : String)
    (v : JVal) (hlog : (loggedin st net).result = .ok v) (hv : pyTruthy v = true) :
    (∀ code msg,
      net (BASEURL ++ "file/idbypath.json")
          [("session_id", st.sessionId), ("path", JVal.s path)] =
        PostResult.httpError code msg →
      (file_idbypath st net path).result = .ok none) ∧
    (∀ r,
      net (BASEURL ++ "file/idbypath.json")
          [("session_id", st.sessionId), ("path", JVal.s path)] =
        PostResult.success r → r.status ≠ 200 →
      (file_idbypath st net path).result = .ok none) ∧
    (∀ r obj fid,
      net (BASEURL ++ "file/idbypath.json")
          [("session_id", st.sessionId), ("path", JVal.s path)] =
        PostResult.success r → r.status = 200 → r.bodyJson = some obj →
      List.lookup "FileId" obj = some fid →
      (file_idbypath st net path).result = .ok (some fid)) ∧
    (∀ r obj,
      net (BASEURL ++ "file/idbypath.json")
          [("session_id", st.sessionId), ("path", JVal.s path)] =
        PostResult.success r → r.status = 200 → r.bodyJson = some obj →
      List.lookup "FileId" obj = none →
      (file_idbypath st net path).result = .error (.keyError "FileId")) := by
  refine ⟨?_, ?_, ?_, ?_⟩
  · intro code msg hresp
    simp [file_idbypath, hlog, hv, hresp]
  · intro r hresp hstat
    simp [file_idbypath, hlog, hv, hresp, hstat]
  · intro r obj fid hresp hstat hjson hfid
    simp [file_idbypath, hlog, hv, hresp, hstat, hjson, hfid]
  · intro r obj hresp hstat hjson hfid
    simp [file_idbypath, hlog, hv, hresp, hstat, hjson, hfid]

/-- C7 witness for the amended behavior: the 200 body carries a `FileId`
field and `file_idbypath` returns its value. -/
theorem file_idbypath_result_behavior_witness :
    (file_idbypath ⟨JVal.s "tok", 2⟩ netIdFound "docs/a.txt").result =
      .ok (some (JVal.s "F123")) :=
  (file_idbypath_result_behavior ⟨JVal.s "tok", 2⟩ netIdFound "docs/a.txt"
      (JVal.b true) rfl rfl).2.2.1
    ⟨200, "", some [("FileId", JVal.s "F123")]⟩ [("FileId", JVal.s "F123")]
    (JVal.s "F123") rfl rfl rfl rfl

/-- A server whose liveness endpoint confirms the session and which
fails every other request with an HTTP 500 error. -/
def netOpsFail : Net := fun url _ =>
if url = BASEURL ++ "session/exists.json" then
  PostResult.success ⟨200, "", some [("result", JVal.b true)]⟩
else PostResult.httpError 500 "Internal Server Error"

/-- A server whose liveness endpoint confirms the session and which
answers every other request with a non-200 status (404). -/
def netOpsNon200 : Net := fun url _ =>
if url = BASEURL ++ "session/exists.json" then
  PostResult.success ⟨200, "", some [("result", JVal.b true)]⟩
else PostResult.success ⟨404, "Not Found", none⟩

/-- `logout` preserves the configured log level. -/
@[simp] theorem logout_state_loglevel (st : APIState) (net : Net) :
    (logout st net).state.loglevel = st.loglevel := by
  unfold logout
  split <;> rfl

/-- Debug-level log calls never write to stderr. -/
@[simp] theorem log_debug_stderrW (lvl : Int) (m : String) :
    (log lvl m .DEBUG).stderrW = [] := by
  unfold log
  split <;> rfl

/-- C8 counterexample: `login` against a server answering 200 with a
JSON body lacking `SessionID`: the `KeyError` propagates uncaught, the
operation returns no boolean at all. -/
theorem login_missing_sessionid_raises :
    (login ⟨JVal.null, 2⟩ netLive "user" "pw").result =
      .error (.keyError "SessionID") ∧
    ∀ b : Bool, (login ⟨JVal.null, 2⟩ netLive "user" "pw").result ≠ .ok b := by
  have hres : (login ⟨JVal.null, 2⟩ netLive "user" "pw").result =
      .error (.keyError "SessionID") := rfl
  refine ⟨hres, ?_⟩
  intro b h
  rw [hres] at h
  exact Except.noConfusion h

/-- C8 (amended): for each operation of the API layer, a transport-level
`HTTPError` on the operation's own request, or a non-200 status there,
is caught and converted to the operation's failure value, and the
operation writes an `[ERROR]` line to stderr at non-negative verbosity;
only a 200 response with a non-JSON body or a missing expected JSON
field escapes as an uncaught exception (shown by the counterexample). -/
theorem http_errors_normalized_to_failure_values (st : APIState) (net : Net)
    (u p fileid folderid rcpt path name : String)
    (subject body nm : Option String) (move override : Bool) (acc : ODAccessPerm) :
    (∀ c m, u ≠ "" → p ≠ "" →
      net (BASEURL ++ "session/login.json")
          [("username", JVal.s u), ("passwd", JVal.s p)] =
        PostResult.httpError c m →
      (login st net u p).result = .ok false ∧
      (0 ≤ st.loglevel → (login st net u p).trace.stderrW ≠ [])) ∧
    (∀ r, u ≠ "" → p ≠ "" →
      net (BASEURL ++ "session/login.json")
          [("username", JVal.s u), ("passwd", JVal.s p)] =
        PostResult.success r → r.status ≠ 200 →
      (login st net u p).result = .ok false ∧
      (0 ≤ st.loglevel → (login st net u p).trace.stderrW ≠ [])) ∧
    (∀ c m, tokenHeld st = true →
      net (BASEURL ++ "session/exists.json") [("session_id", st.sessionId)] =
        PostResult.httpError c m →
      (loggedin st net).result = .ok (JVal.b false) ∧
      (0 ≤ st.loglevel → (loggedin st net).trace.stderrW ≠ [])) ∧
    (∀ r, tokenHeld st = true →
      net (BASEURL ++ "session/exists.json") [("session_id", st.sessionId)] =
        PostResult.success r → r.status ≠ 200 →
      (loggedin st net).result = .ok (JVal.b false) ∧
      (0 ≤ st.loglevel → (loggedin st net).trace.stderrW ≠ [])) ∧
    (∀ v c m, (loggedin st net).result = .ok v → pyTruthy v = true →
      net (BASEURL ++ "file/trash.json")
          [("session_id", st.sessionId), ("file_id", JVal.s fileid)] =
        PostResult.httpError c m →
      (file_trash st net fileid).result = .ok false ∧
      (0 ≤ st.loglevel → (file_trash st net fileid).trace.stderrW ≠ [])) ∧
    (∀ v r, (loggedin st net).result = .ok v → pyTruthy v = true →
      net (BASEURL ++ "file/trash.json")
          [("session_id", st.sessionId), ("file_id", JVal.s fileid)] =
        PostResult.success r → r.status ≠ 200 →
      (file_trash st net fileid).result = .ok false ∧
      (0 ≤ st.loglevel → (file_trash st net fileid).trace.stderrW ≠ [])) ∧
    (∀ v c m, (loggedin st net).result = .ok v → pyTruthy v = true →
      net (BASEURL ++ "file/restore.json")
          [("session_id", st.sessionId), ("file_id", JVal.s fileid)] =
        PostResult.httpError c m →
      (file_restore st net fileid).result = .ok false ∧
      (0 ≤ st.loglevel → (file_restore st net fileid).trace.stderrW ≠ [])) ∧
    (∀ v r, (loggedin st net).result = .ok v → pyTruthy v = true →
      net (BASEURL ++ "file/restore.json")
          [("session_id", st.sessionId), ("file_id", JVal.s fileid)] =
        PostResult.success r → r.status ≠ 200 →
      (file_restore st net fileid).result = .ok false ∧
      (0 ≤ st.loglevel → (file_restore st net fileid).trace.stderrW ≠ [])) ∧
    (∀ v c m, (loggedin st net).result = .ok v → pyTruthy v = true →
      net (BASEURL ++ "file/sendbyemail.json")
          (file_sendbyemail_req st.sessionId fileid rcpt subject body) =
        PostResult.httpError c m →
      (file_sendbyemail st net fileid rcpt subject body).result = .ok false ∧
      (0 ≤ st.loglevel →
        (file_sendbyemail st net fileid rcpt subject body).trace.stderrW ≠ [])) ∧
    (∀ v r, (loggedin st net).result = .ok v → pyTruthy v = true →
      net (BASEURL ++ "file/sendbyemail.json")
          (file_sendbyemail_req st.sessionId fileid rcpt subject body) =
        PostResult.success r → r.status ≠ 200 →
      (file_sendbyemail st net fileid rcpt subject body).result = .ok false ∧
      (0 ≤ st.loglevel →
        (file_sendbyemail st net fileid rcpt subject body).trace.stderrW ≠ [])) ∧
    (∀ v c m, (loggedin st net).result = .ok v → pyTruthy v = true →
      net (BASEURL ++ "file/rename.json")
          [("session_id", st.sessionId), ("file_id", JVal.s fileid),
            ("new_file_name", JVal.s name)] =
        PostResult.httpError c m →
      (file_rename st net fileid name).result = .ok false ∧
      (0 ≤ st.loglevel → (file_rename st net fileid name).trace.stderrW ≠ [])) ∧
    (∀ v r, (loggedin st net).result = .ok v → pyTruthy v = true →
      net (BASEURL ++ "file/rename.json")
          [("session_id", st.sessionId), ("file_id", JVal.s fileid),
            ("new_file_name", JVal.s name)] =
        PostResult.success r → r.status ≠ 200 →
      (file_rename st net fileid name).result = .ok false ∧
      (0 ≤ st.loglevel → (file_rename st net fileid name).trace.stderrW ≠ [])) ∧
    (∀ v c m, (loggedin st net).result = .ok v → pyTruthy v = true →
      net (BASEURL ++ "file/move_copy.json")
          (file_movecopy_req st.sessionId fileid folderid move override nm) =
        PostResult.httpError c m →
      (file_movecopy st net fileid folderid move override nm).result = .ok false ∧
      (0 ≤ st.loglevel →
        (file_movecopy st net fileid folderid move override nm).trace.stderrW ≠ [])) ∧
    (∀ v r, (loggedin st net).result = .ok v → pyTruthy v = true →
      net (BASEURL ++ "file/move_copy.json")
          (file_movecopy_req st.sessionId fileid folderid move override nm) =
        PostResult.success r → r.status ≠ 200 →
      (file_movecopy st net fileid folderid move override nm).result = .ok false ∧
      (0 ≤ st.loglevel →
        (file_movecopy st net fileid folderid move override nm).trace.stderrW ≠ [])) ∧
    (∀ v c m, (loggedin st net).result = .ok v → pyTruthy v = true →
      net (BASEURL ++ "file/idbypath.json")
          [("session_id", st.sessionId), ("path", JVal.s path)] =
        PostResult.httpError c m →
      (file_idbypath st net path).result = .ok none ∧
      (0 ≤ st.loglevel → (file_idbypath st net path).trace.stderrW ≠ [])) ∧
    (∀ v r, (loggedin st net).result = .ok v → pyTruthy v = true →
      net (BASEURL ++ "file/idbypath.json")
          [("session_id", st.sessionId), ("path", JVal.s path)] =
        PostResult.success r → r.status ≠ 200 →
      (file_idbypath st net path).result = .ok none ∧
      (0 ≤ st.loglevel → (file_idbypath st net path).trace.stderrW ≠ [])) ∧
    (∀ v c m, (loggedin st net).result = .ok v → pyTruthy v = true →
      net (BASEURL ++ "file/access.json")
          [("session_id", st.sessionId), ("file_id", JVal.s fileid),
            ("file_ispublic", JVal.i acc.value)] =
        PostResult.httpError c m →
      (file_setaccess st net fileid acc).result = .ok (some false) ∧
      (0 ≤ st.loglevel → (file_setaccess st net fileid acc).trace.stderrW ≠ [])) ∧
    (∀ v r, (loggedin st net).result = .ok v → pyTruthy v = true →
      net (BASEURL ++ "file/access.json")
          [("session_id", st.sessionId), ("file_id", JVal.s fileid),
            ("file_ispublic", JVal.i acc.value)] =
        PostResult.success r → r.status ≠ 200 →
      (file_setaccess st net fileid acc).result = .ok (some false) ∧
      (0 ≤ st.loglevel → (file_setaccess st net fileid acc).trace.stderrW ≠ [])) := by
  refine ⟨?_, ?_, ?_, ?_, ?_, ?_, ?_, ?_, ?_, ?_, ?_, ?_, ?_, ?_, ?_, ?_, ?_, ?_⟩
  · intro c m hu hp hresp
    have hcred : ¬(u = "" ∨ p = "") := by simp [hu, hp]
    refine ⟨?_, fun hl => ?_⟩
    · simp [login, hcred, hresp]
    · by_cases htok : tokenHeld st <;>
        simp [login, hcred, hresp, htok, postTrace, log, ODLogLevel.val, hl,
          Trace.empty]
  · intro r hu hp hresp hstat
    have hcred : ¬(u = "" ∨ p = "") := by simp [hu, hp]
    refine ⟨?_, fun hl => ?_⟩
    · simp [login, hcred, hresp, hstat]
    · by_cases htok : tokenHeld st <;>
        simp [login, hcred, hresp, hstat, htok, postTrace, log, ODLogLevel.val, hl,
          Trace.empty]
  · intro c m htok hresp
    refine ⟨?_, fun hl => ?_⟩
    · simp [loggedin, htok, hresp]
    · simp [loggedin, htok, hresp, postTrace, log, ODLogLevel.val, hl]
  · intro r htok hresp hstat
    refine ⟨?_, fun hl => ?_⟩
    · simp [loggedin, htok, hresp, hstat]
    · simp [loggedin, htok, hresp, hstat, postTrace, log, ODLogLevel.val, hl]
  · intro v c m hlog hv hresp
    refine ⟨?_, fun hl => ?_⟩
    · simp [file_trash, hlog, hv, hresp]
    · simp [file_trash, hlog, hv, hresp, postTrace, log, ODLogLevel.val, hl]
  · intro v r hlog hv hresp hstat
    refine ⟨?_, fun hl => ?_⟩
    · simp [file_trash, hlog, hv, hresp, hstat]
    · simp [file_trash, hlog, hv, hresp, hstat, postTrace, log, ODLogLevel.val, hl]
  · intro v c m hlog hv hresp
    refine ⟨?_, fun hl => ?_⟩
    · simp [file_restore, hlog, hv, hresp]
    · simp [file_restore, hlog, hv, hresp, postTrace, log, ODLogLevel.val, hl]
  · intro v r hlog hv hresp hstat
    refine ⟨?_, fun hl => ?_⟩
    · simp [file_restore, hlog, hv, hresp, hstat]
    · simp [file_restore, hlog, hv, hresp, hstat, postTrace, log, ODLogLevel.val, hl]
  · intro v c m hlog hv hresp
    refine ⟨?_, fun hl => ?_⟩
    · simp [file_sendbyemail, hlog, hv, hresp]
    · simp [file_sendbyemail, hlog, hv, hresp, postTrace, log, ODLogLevel.val, hl]
  · intro v r hlog hv hresp hstat
    refine ⟨?_, fun hl => ?_⟩
    · simp [file_sendbyemail, hlog, hv, hresp, hstat]
    · simp [file_sendbyemail, hlog, hv, hresp, hstat, postTrace, log,
        ODLogLevel.val, hl]
  · intro v c m hlog hv hresp
    refine ⟨?_, fun hl => ?_⟩
    · simp [file_rename, hlog, hv, hresp]
    · simp [file_rename, hlog, hv, hresp, postTrace, log, ODLogLevel.val, hl]
  · intro v r hlog hv hresp hstat
    refine ⟨?_, fun hl => ?_⟩
    · simp [file_rename, hlog, hv, hresp, hstat]
    · simp [file_rename, hlog, hv, hresp, hstat, postTrace, log, ODLogLevel.val, hl]
  · intro v c m hlog hv hresp
    refine ⟨?_, fun hl => ?_⟩
    · simp [file_movecopy, hlog, hv, hresp]
    · simp [file_movecopy, hlog, hv, hresp, postTrace, log, ODLogLevel.val, hl]
  · intro v r hlog hv hresp hstat
    refine ⟨?_, fun hl => ?_⟩
    · simp [file_movecopy, hlog, hv, hresp, hstat]
    · simp [file_movecopy, hlog, hv, hresp, hstat, postTrace, log, ODLogLevel.val, hl]
  · intro v c m hlog hv hresp
    refine ⟨?_, fun hl => ?_⟩
    · simp [file_idbypath, hlog, hv, hresp]
    · simp [file_idbypath, hlog, hv, hresp, postTrace, log, ODLogLevel.val, hl]
  · intro v r hlog hv hresp hstat
    refine ⟨?_, fun hl => ?_⟩
    · simp [file_idbypath, hlog, hv, hresp, hstat]
    · simp [file_idbypath, hlog, hv, hresp, hstat, postTrace, log, ODLogLevel.val, hl]
  · intro v c m hlog hv hresp
    refine ⟨?_, fun hl => ?_⟩
    · simp [file_setaccess, hlog, hv, hresp]
    · simp [file_setaccess, hlog, hv, hresp, postTrace, log, ODLogLevel.val, hl]
  · intro v r hlog hv hresp hstat
    refine ⟨?_, fun hl => ?_⟩
    · simp [file_setaccess, hlog, hv, hresp, hstat]
    · simp [file_setaccess, hlog, hv, hresp, hstat, postTrace, log, ODLogLevel.val, hl]

/-- C8 witness: a held token; servers whose liveness endpoint is live
but whose operation endpoints fail with HTTP 500 or answer 404; each
operation returns its failure value and an `[ERROR]` line reaches
stderr. -/
theorem http_errors_normalized_witness :
    (login ⟨JVal.s "tok", 2⟩ netOpsFail "user" "pw").result = .ok false ∧
    (login ⟨JVal.s "tok", 2⟩ netOpsFail "user" "pw").trace.stderrW ≠ [] ∧
    (login ⟨JVal.s "tok", 2⟩ netOpsNon200 "user" "pw").result = .ok false ∧
    (loggedin ⟨JVal.s "tok", 2⟩ netHttp500).result = .ok (JVal.b false) ∧
    (loggedin ⟨JVal.s "tok", 2⟩ netHttp500).trace.stderrW ≠ [] ∧
    (file_trash ⟨JVal.s "tok", 2⟩ netOpsFail "f1").result = .ok false ∧
    (file_trash ⟨JVal.s "tok", 2⟩ netOpsFail "f1").trace.stderrW ≠ [] ∧
    (file_restore ⟨JVal.s "tok", 2⟩ netOpsNon200 "f1").result = .ok false ∧
    (file_restore ⟨JVal.s "tok", 2⟩ netOpsNon200 "f1").trace.stderrW ≠ [] ∧
    (file_sendbyemail ⟨JVal.s "tok", 2⟩ netOpsFail "f1" "a@b.c" none none).result =
      .ok false ∧
    (file_rename ⟨JVal.s "tok", 2⟩ netOpsNon200 "f1" "new.txt").result = .ok false ∧
    (file_movecopy ⟨JVal.s "tok", 2⟩ netOpsFail "f1" "d1" true false none).result =
      .ok false ∧
    (file_movecopy ⟨JVal.s "tok", 2⟩ netOpsFail "f1" "d1" true false none).trace.stderrW ≠
      [] ∧
    (file_idbypath ⟨JVal.s "tok", 2⟩ netOpsNon200 "a/b").result = .ok none ∧
    (file_idbypath ⟨JVal.s "tok", 2⟩ netOpsNon200 "a/b").trace.stderrW ≠ [] ∧
    (file_setaccess ⟨JVal.s "tok", 2⟩ netOpsFail "f1" ODAccessPerm.PRIVATE).result =
      .ok (some false) ∧
    (file_setaccess ⟨JVal.s "tok", 2⟩ netOpsFail "f1" ODAccessPerm.PRIVATE).trace.stderrW ≠
      [] :=
  have T1 := http_errors_normalized_to_failure_values ⟨JVal.s "tok", 2⟩ netOpsFail
    "user" "pw" "f1" "d1" "a@b.c" "a/b" "new.txt" none none none true false
    ODAccessPerm.PRIVATE
  have T2 := http_errors_normalized_to_failure_values ⟨JVal.s "tok", 2⟩ netOpsNon200
    "user" "pw" "f1" "d1" "a@b.c" "a/b" "new.txt" none none none true false
    ODAccessPerm.PRIVATE
  have T3 := http_errors_normalized_to_failure_values ⟨JVal.s "tok", 2⟩ netHttp500
    "user" "pw" "f1" "d1" "a@b.c" "a/b" "new.txt" none none none true false
    ODAccessPerm.PRIVATE
  have hlogin := T1.1 500 "Internal Server Error" (by decide) (by decide) rfl
  have hlogin2 := T2.2.1 ⟨404, "Not Found", none⟩ (by decide) (by decide) rfl (by decide)
  have hlive := T3.2.2.1 500 "Internal Server Error" rfl rfl
  have htr := T1.2.2.2.2.1 (JVal.b true) 500 "Internal Server Error" rfl rfl rfl
  have hre := T2.2.2.2.2.2.2.2.1 (JVal.b true) ⟨404, "Not Found", none⟩ rfl rfl rfl
    (by decide)
  have hse := T1.2.2.2.2.2.2.2.2.1 (JVal.b true) 500 "Internal Server Error" rfl rfl rfl
  have hrn := T2.2.2.2.2.2.2.2.2.2.2.2.1 (JVal.b true) ⟨404, "Not Found", none⟩
    rfl rfl rfl (by decide)
  have hmc := T1.2.2.2.2.2.2.2.2.2.2.2.2.1 (JVal.b true) 500 "Internal Server Error"
    rfl rfl rfl
  have hib := T2.2.2.2.2.2.2.2.2.2.2.2.2.2.2.2.1 (JVal.b true) ⟨404, "Not Found", none⟩
    rfl rfl rfl (by decide)
  have hsa := T1.2.2.2.2.2.2.2.2.2.2.2.2.2.2.2.2.1 (JVal.b true)
    500 "Internal Server Error" rfl rfl rfl
  ⟨hlogin.1, hlogin.2 (by decide), hlogin2.1, hlive.1, hlive.2 (by decide),
    htr.1, htr.2 (by decide), hre.1, hre.2 (by decide), hse.1, hrn.1,
    hmc.1, hmc.2 (by decide), hib.1, hib.2 (by decide), hsa.1, hsa.2 (by decide)⟩

/-- C9: for every non-negative configured verbosity (the CLI passes the
`-v` count, which is at least 0) and every message, an Error-level
message is written to stderr with the `[ERROR] ` prefix, and a message of
any other level (Warning, Info, Debug) is written to stdout exactly when
its level code is within the configured verbosity threshold. -/
theorem log_error_to_stderr_and_level_gating (v : Int) (msg : String) (hv : 0 ≤ v) :
    (log v msg .ERROR).stderrW = ["[ERROR] " ++ msg ++ odLinesep] ∧
    (∀ lvl : ODLogLevel, lvl ≠ .ERROR →
      ((log v msg lvl).stdoutW ≠ [] ↔ lvl.val ≤ v)) := by
  constructor
  · simp [log, ODLogLevel.val, hv]
  · intro lvl hlvl
    cases lvl
    · exact absurd rfl hlvl
    all_goals
      unfold log
      split <;> simp_all [Trace.empty]

/-- C9 witness: verbosity 0 — the error line reaches stderr, and a Debug
message is emitted to stdout exactly when 3 ≤ 0, i.e. never. -/
theorem log_error_to_stderr_and_level_gating_witness :
    (log 0 "boom" .ERROR).stderrW = ["[ERROR] " ++ "boom" ++ odLinesep] ∧
    ((log 0 "boom" .DEBUG).stdoutW ≠ [] ↔ ODLogLevel.DEBUG.val ≤ 0) :=
  ⟨(log_error_to_stderr_and_level_gating 0 "boom" (by decide)).1,
    (log_error_to_stderr_and_level_gating 0 "boom" (by decide)).2 .DEBUG (by decide)⟩

/-- C10: `log` gates Error-level messages by the same
`level <= loglevel` comparison as every other level; when the gate passes
an Error message is written twice — once to stderr with the `[ERROR] `
prefix and once, unprefixed, to stdout — and when it fails nothing is
written at all. -/
theorem log_error_double_write_same_gate (v : Int) (msg : String) :
    (ODLogLevel.ERROR.val ≤ v →
      log v msg .ERROR =
        ⟨[msg ++ odLinesep], ["[ERROR] " ++ msg ++ odLinesep], []⟩) ∧
    (¬ ODLogLevel.ERROR.val ≤ v → log v msg .ERROR = Trace.empty) ∧
    (∀ lvl : ODLogLevel, log v msg lvl ≠ Trace.empty ↔ lvl.val ≤ v) := by
  refine ⟨?_, ?_, ?_⟩
  · intro h
    unfold log
    rw [if_pos h]
  · intro h
    unfold log
    rw [if_neg h]
  · intro lvl
    unfold log
    split
    · cases lvl <;> simp_all [Trace.empty]
    · simp_all [Trace.empty]

/-- C10 witness: at verbosity 0 the Error message is written to both
streams; at verbosity -1 the shared gate suppresses it entirely. -/
theorem log_error_double_write_same_gate_witness :
    log 0 "boom" .ERROR =
      ⟨["boom" ++ odLinesep], ["[ERROR] " ++ "boom" ++ odLinesep], []⟩ ∧
    log (-1) "boom" .ERROR = Trace.empty :=
  ⟨(log_error_double_write_same_gate 0 "boom").1 (by decide),
    (log_error_double_write_same_gate (-1) "boom").2.1 (by decide)⟩

end OpenDriveAPI
